import Mathlib

/-!
Verification of the email validation pipeline in `emailValidator.js`.

The JavaScript source is shallowly embedded: pure functions become Lean
functions on `String`/`List Char`; the network-facing stages (DNS lookup,
MX resolution, SMTP probing) are parameterised by an explicit `World` of
oracle outcomes, and the raw-socket SMTP handshake becomes a state machine
over the list of data events received from the server.  JavaScript string
operations are modelled on `List Char` (`trim`, `split`, `match(/@/g)`,
`substr`, `parseInt`).
-/

namespace EmailValidator

/-- An MX record as returned by `dns.resolveMx`: `{ exchange, priority }`. -/
structure MxRecord where
  exchange : String
  priority : Int
  deriving DecidableEq

/-- The result object of one check.  The JS code builds plain objects
`{ passed, message }`, some carrying `records` (mx) or `response` (smtp);
missing fields are modelled by the defaults `[]` / `""`. -/
structure CheckResult where
  passed : Bool
  message : String
  records : List MxRecord := []
  response : String := ""
  deriving DecidableEq

/-- The members of the JS whitespace class that `String.prototype.trim`
removes, restricted to the characters this model works with. -/
def isJsWs (c : Char) : Bool :=
  c == ' ' || c == '\t' || c == '\n' || c == '\r' || c == '\x0b' ||
  c == '\x0c' || c == '\xa0'

/-- `String.prototype.trim` on a character list: remove leading and
trailing JS whitespace. -/
def trimChars (cs : List Char) : List Char :=
  (cs.dropWhile isJsWs).rdropWhile isJsWs

/-- `String.prototype.trim`. -/
def jsTrim (s : String) : String :=
  ⟨trimChars s.toList⟩

/-- `String.prototype.split(sep)` for a one-character separator: JS and
this function agree on all inputs (`"".split` gives `[""]`, separators at
the ends give empty fragments). -/
def jsSplitChar : List Char → Char → List (List Char)
  | [], _ => [[]]
  | c :: rest, sep =>
    let r := jsSplitChar rest sep
    if c == sep then [] :: r
    else
      match r with
      | h :: t => (c :: h) :: t
      | [] => [[c]]

/-- The local-part character class of the validator's RFC-5322-inspired
regex: alphanumerics plus `. ! # $ % & ' * + / = ? ^ _ \x60 \x7b | \x7d ~ -`
(the four characters written by code point are the apostrophe-adjacent
backtick and the two curly brackets). -/
def localSpecialChars : List Char :=
  ['.', '!', '#', '$', '%', '&', '*', '+', '/', '=', '?', '^', '_', '~',
   '-', '|', Char.ofNat 39, Char.ofNat 96, Char.ofNat 123, Char.ofNat 125]

/-- Membership in the regex's local-part character class. -/
def isLocalRegexChar (c : Char) : Bool :=
  c.isAlphanum || localSpecialChars.contains c

/-- The regex fragment for one DNS label:
`[a-zA-Z0-9](?:[a-zA-Z0-9-]\x7b0,61\x7d[a-zA-Z0-9])?` — length 1 to 63,
alphanumeric or hyphen, first and last character alphanumeric. -/
def labelMatches (cs : List Char) : Bool :=
  decide (1 ≤ cs.length) && decide (cs.length ≤ 63) &&
  cs.all (fun c => c.isAlphanum || c == '-') &&
  (cs.headD '-').isAlphanum && (cs.getLastD '-').isAlphanum

/-- The regex fragment before the `@`: one or more local-part characters. -/
def localMatches (cs : List Char) : Bool :=
  !cs.isEmpty && cs.all isLocalRegexChar

/-- The regex fragment after the `@`: one or more labels separated by
dots.  Since labels never contain `.`, splitting on `.` is the unique
decomposition the regex backtracks to. -/
def domainMatches (cs : List Char) : Bool :=
  (jsSplitChar cs '.').all labelMatches

/-- Full-string test of the validator's email regex.  Neither character
class contains `@`, so a match forces exactly one `@`, splitting the
string into a local part and a domain. -/
def emailRegexMatches (cs : List Char) : Bool :=
  match jsSplitChar cs '@' with
  | [l, d] => localMatches l && domainMatches d
  | _ => false

/-- `localPart.includes('..')`. -/
def hasConsecutiveDots : List Char → Bool
  | a :: b :: rest => (a == '.' && b == '.') || hasConsecutiveDots (b :: rest)
  | _ => false

/-- `validateSyntax(email)`: the rule chain of the source, in order.  The
guard `!email || typeof email !== 'string'` is modelled for string inputs,
where it rejects exactly the empty string.  The input is trimmed into a
local copy before any rule is applied. -/
def validateSyntax (email : String) : CheckResult :=
  if email = "" then
    { passed := false, message := "Email is required and must be a string" }
  else
    let t := trimChars email.toList
    if t.count '@' ≠ 1 then
      { passed := false, message := "Email must contain exactly one @ symbol" }
    else
      let parts := jsSplitChar t '@'
      let localPart := parts.headD []
      let domain := (parts.drop 1).headD []
      if localPart.length = 0 ∨ localPart.length > 64 then
        { passed := false, message := "Local part must be 1-64 characters" }
      else if domain.length = 0 ∨ domain.length > 253 then
        { passed := false, message := "Domain part must be 1-253 characters" }
      else if ¬ emailRegexMatches t then
        { passed := false, message := "Email format is invalid according to RFC 5322" }
      else if localPart.headD ' ' = '.' ∨ localPart.getLastD ' ' = '.' then
        { passed := false, message := "Local part cannot start or end with a period" }
      else if hasConsecutiveDots localPart then
        { passed := false, message := "Local part cannot contain consecutive periods" }
      else if domain.headD ' ' = '-' ∨ domain.getLastD ' ' = '-' then
        { passed := false, message := "Domain cannot start or end with a hyphen" }
      else
        { passed := true, message := "Email syntax is valid" }

/-- The `{ localPart, domain }` pair produced by `parseEmail`. -/
structure ParsedEmail where
  localPart : String
  domain : String
  deriving DecidableEq

/-- `parseEmail(email)`: destructures `email.split('@')` — the ORIGINAL,
untrimmed string — into its first two fragments.  (With no `@` at all the
JS `domain` would be `undefined`; that situation is unreachable from the
pipeline, which only parses after the one-`@` syntax rule passed, and is
modelled as `""`.) -/
def parseEmail (email : String) : ParsedEmail :=
  let parts := jsSplitChar email.toList '@'
  { localPart := ⟨parts.headD []⟩, domain := ⟨(parts.drop 1).headD []⟩ }

/-- Constructor-time configuration of `EmailValidator` (the numeric
`timeout` only drives real-time watchdogs and has no effect in this
model beyond being recorded). -/
structure Config where
  timeout : Nat := 2500
  retryAttempts : Nat := 1
  fromEmail : String := "test@example.com"
  hostname : String := "localhost"
  disposableDomains : List String
  roleBasedNames : List String

/-- The curated disposable-domain set of the constructor. -/
def defaultDisposableDomains : List String :=
  ["10minutemail.com", "20minutemail.com", "guerrillamail.com",
   "mailinator.com", "tempmail.org", "temp-mail.org", "yopmail.com",
   "throwaway.email", "maildrop.cc", "trashmail.com", "dispostable.com",
   "mailnesia.com", "spamgourmet.com", "mohmal.com", "sharklasers.com",
   "grr.la", "guerrillamailblock.com", "pokemail.net", "spam4.me",
   "tempail.com", "tempemail.com", "tempinbox.com", "emailondeck.com",
   "getnada.com", "harakirimail.com", "mytrashmail.com", "mailcatch.com"]

/-- The curated role-account local-part set of the constructor (the JS
field `this.roleBasedPrefixes`). -/
def defaultRoleBasedNames : List String :=
  ["admin", "administrator", "support", "help", "info", "contact",
   "sales", "marketing", "billing", "accounts", "no-reply", "noreply",
   "webmaster", "postmaster", "hostmaster", "abuse", "security",
   "privacy", "legal", "compliance", "hr", "recruiting", "careers"]

/-- A `Config` with every constructor default. -/
def defaultConfig : Config :=
  { disposableDomains := defaultDisposableDomains,
    roleBasedNames := defaultRoleBasedNames }

/-- `checkDisposable(domain)`: case-insensitive membership in the
disposable-domain set. -/
def checkDisposable (cfg : Config) (domain : String) : CheckResult :=
  let isDisposable := cfg.disposableDomains.contains domain.toLower
  { passed := !isDisposable,
    message := if isDisposable then "Domain is a known disposable email provider"
               else "Domain is not a disposable email provider" }

/-- `checkRoleBased(localPart)`: case-insensitive membership in the
role-account set. -/
def checkRoleBased (cfg : Config) (localPart : String) : CheckResult :=
  let isRoleBased := cfg.roleBasedNames.contains localPart.toLower
  { passed := !isRoleBased,
    message := if isRoleBased then "Email appears to be role-based (non-personal)"
               else "Email appears to be personal (not role-based)" }

/-- `validateDomain(domain)` as a function of the settled `dns.lookup`
outcome (`.ok` = resolved, `.error e` = rejected with `error.code ||
error.message` equal to `e`).  The JS catch converts any lookup failure
into a failed check, so this function never throws. -/
def validateDomain (res : Except String Unit) : CheckResult :=
  match res with
  | .ok _ => { passed := true, message := "Domain exists and is resolvable" }
  | .error e => { passed := false, message := "Domain lookup failed: " ++ e }

/-- The comparator `(a, b) => a.priority - b.priority` as an ordering
relation. -/
def byPriority (a b : MxRecord) : Prop :=
  a.priority ≤ b.priority

instance : DecidableRel byPriority :=
  fun a b => inferInstanceAs (Decidable (a.priority ≤ b.priority))

instance : IsTotal MxRecord byPriority :=
  ⟨fun a b => Int.le_total a.priority b.priority⟩

instance : IsTrans MxRecord byPriority :=
  ⟨fun _ _ _ hab hbc => le_trans hab hbc⟩

/-- `validateMX(domain)` as a function of the settled `dns.resolveMx`
outcome.  A query error or an empty record list is a failed check; a
non-empty list is stably sorted ascending by priority (ES2019
`Array.prototype.sort` is stable) and reported with its count. -/
def validateMX (res : Except String (List MxRecord)) : CheckResult :=
  match res with
  | .error e =>
    { passed := false, message := "MX record lookup failed: " ++ e, records := [] }
  | .ok mxRecords =>
    if mxRecords.isEmpty then
      { passed := false, message := "No MX records found for domain", records := [] }
    else
      let sortedRecords := mxRecords.insertionSort byPriority
      { passed := true,
        message := "Found " ++ toString sortedRecords.length ++ " MX record(s)",
        records := sortedRecords }

/-- How the `Promise.race` inside `withTimeout` settles: the wrapped
promise resolves first, the timer rejects first (with the stage's
timeout message), or the wrapped promise rejects first with message
`m`. -/
inductive RaceCtl where
  | completes : RaceCtl
  | timerWins : RaceCtl
  | rejects : String → RaceCtl
  deriving DecidableEq

/-- `withTimeout(promise, timeoutMs, timeoutMessage)`: a rejection whose
message equals `timeoutMessage` (in particular the timer's own) is
converted into a failed `CheckResult` carrying that message; any other
rejection is rethrown (`.error`). -/
def withTimeout (ctl : RaceCtl) (value : CheckResult) (timeoutMessage : String) :
    Except String CheckResult :=
  match ctl with
  | .completes => .ok value
  | .timerWins => .ok { passed := false, message := timeoutMessage, records := [] }
  | .rejects m =>
    if m = timeoutMessage then
      .ok { passed := false, message := timeoutMessage, records := [] }
    else
      .error m

/-- How one `performSMTPCheck(email, host)` promise settles for the
orchestrator: resolved with a `CheckResult`, or rejected (connection
error, watchdog/socket timeout) with an error message. -/
inductive ProbeOutcome where
  | ok : CheckResult → ProbeOutcome
  | err : String → ProbeOutcome
  deriving DecidableEq

/-- Observable actions of `validateSMTP`: probing one host in one retry
round, and the `sleep(1000)` between rounds. -/
inductive SmtpEvent where
  | probeHost : Nat → String → SmtpEvent
  | sleep : Nat → SmtpEvent
  deriving DecidableEq

/-- The inner `for (const mx of mxRecords)` loop of `validateSMTP` for
one retry round: probe hosts in list order, return the first resolved
`passed=true` result, swallow rejections and resolved failures alike and
move on.  Also records the probe order. -/
def runRound (probe : Nat → MxRecord → ProbeOutcome) (attempt : Nat) :
    List MxRecord → Option CheckResult × List SmtpEvent
  | [] => (none, [])
  | mx :: rest =>
    let ev := SmtpEvent.probeHost attempt mx.exchange
    match probe attempt mx with
    | .ok r =>
      if r.passed then (some r, [ev])
      else
        match runRound probe attempt rest with
        | (res, evs) => (res, ev :: evs)
    | .err _ =>
      match runRound probe attempt rest with
      | (res, evs) => (res, ev :: evs)

/-- The fallthrough result of `validateSMTP` after every round over every
host failed. -/
def smtpFailAll : CheckResult :=
  { passed := false,
    message := "SMTP validation failed for all MX servers after retries",
    response := "" }

/-- The outer retry loop of `validateSMTP`: `attempt` is the current
round index, `remaining` the number of rounds left (`attempt + remaining`
equals `total` on every reachable call); `sleep(1000)` runs after any
round other than the last. -/
def validateSMTPGo (probe : Nat → MxRecord → ProbeOutcome) (records : List MxRecord)
    (total : Nat) : Nat → Nat → CheckResult × List SmtpEvent
  | _, 0 => (smtpFailAll, [])
  | attempt, remaining + 1 =>
    match runRound probe attempt records with
    | (some r, evs) => (r, evs)
    | (none, evs) =>
      let next := validateSMTPGo probe records total (attempt + 1) remaining
      if attempt + 1 < total then (next.1, evs ++ SmtpEvent.sleep 1000 :: next.2)
      else (next.1, evs ++ next.2)

/-- `validateSMTP(email, mxRecords)`: the retry/fallback orchestrator,
returning its resolved value together with the trace of probes and
sleeps.  It never rejects. -/
def validateSMTP (cfg : Config) (probe : Nat → MxRecord → ProbeOutcome)
    (records : List MxRecord) : CheckResult × List SmtpEvent :=
  validateSMTPGo probe records cfg.retryAttempts 0 cfg.retryAttempts

/-- The oracle for everything outside the process: how each raced stage
settles, the settled DNS answers per queried name, and the settled SMTP
probe outcome per (email, round, host). -/
structure World where
  domainCtl : RaceCtl
  domainLookup : String → Except String Unit
  mxCtl : RaceCtl
  mxLookup : String → Except String (List MxRecord)
  smtpCtl : RaceCtl
  probe : String → Nat → MxRecord → ProbeOutcome

/-- The `checks` map of a report. -/
structure Checks where
  syntaxCheck : CheckResult
  domain : CheckResult
  mx : CheckResult
  smtp : CheckResult
  disposable : CheckResult
  roleBased : CheckResult
  deriving DecidableEq

/-- The initial `result.checks` object of `validateEmail` (lines 38-45):
every network check starts failed with an empty message, both heuristics
start passed with an empty message. -/
def initChecks : Checks :=
  { syntaxCheck := { passed := false, message := "" },
    domain := { passed := false, message := "" },
    mx := { passed := false, message := "", records := [] },
    smtp := { passed := false, message := "", response := "" },
    disposable := { passed := true, message := "" },
    roleBased := { passed := true, message := "" } }

/-- A validation report (the wall-clock `executionTime` and `timestamp`
fields are outside the model). -/
structure Report where
  email : String
  isValid : Bool
  checks : Checks
  deriving DecidableEq

/-- The top-level `catch` of `validateEmail`: the report accumulated so
far is returned with `isValid` still false and the error message written
into the syntax check's message field. -/
def errorReport (email : String) (cks : Checks) (m : String) : Report :=
  { email := email,
    isValid := false,
    checks := { cks with
      syntaxCheck := { cks.syntaxCheck with message := "Validation error: " ++ m } } }

/-- Step 2 of the pipeline as raced by `withTimeout`: `validateDomain`
applied to the domain half of `parseEmail(email)`. -/
def domainStage (w : World) (email : String) : Except String CheckResult :=
  withTimeout w.domainCtl (validateDomain (w.domainLookup (parseEmail email).domain))
    "Domain lookup timeout"

/-- Step 3 of the pipeline as raced by `withTimeout`: `validateMX` on the
same parsed domain. -/
def mxStage (w : World) (email : String) : Except String CheckResult :=
  withTimeout w.mxCtl (validateMX (w.mxLookup (parseEmail email).domain))
    "MX record lookup timeout"

/-- Step 4 of the pipeline as raced by `withTimeout`: the orchestrator's
resolved value over the passed MX records. -/
def smtpStage (cfg : Config) (w : World) (email : String)
    (records : List MxRecord) : Except String CheckResult :=
  withTimeout w.smtpCtl (validateSMTP cfg (w.probe email) records).1
    "SMTP validation timeout"

/-- `validateEmail(email)`: the full pipeline.  Each raced stage either
yields a `CheckResult` (stored into the report) or throws, in which case
the top-level catch produces `errorReport`. -/
def validateEmail (cfg : Config) (w : World) (email : String) : Report :=
  let syntaxResult := validateSyntax email
  let checks1 : Checks := { initChecks with syntaxCheck := syntaxResult }
  if syntaxResult.passed then
    let pe := parseEmail email
    match domainStage w email with
    | .error m => errorReport email checks1 m
    | .ok domainResult =>
      let checks2 := { checks1 with domain := domainResult }
      if domainResult.passed then
        match mxStage w email with
        | .error m => errorReport email checks2 m
        | .ok mxResult =>
          let checks3 := { checks2 with mx := mxResult }
          if mxResult.passed then
            match smtpStage cfg w email mxResult.records with
            | .error m => errorReport email checks3 m
            | .ok smtpResult =>
              let checks4 := { checks3 with
                smtp := smtpResult,
                disposable := checkDisposable cfg pe.domain,
                roleBased := checkRoleBased cfg pe.localPart }
              { email := email,
                isValid := syntaxResult.passed && domainResult.passed &&
                           mxResult.passed && smtpResult.passed,
                checks := checks4 }
          else { email := email, isValid := false, checks := checks3 }
      else { email := email, isValid := false, checks := checks2 }
  else { email := email, isValid := false, checks := checks1 }

/-- Accumulation loop of `parseInt`: consume digits of the given base
until the first non-digit. -/
def digitsGo (base : Int) (isD : Char → Bool) (val : Char → Nat) (acc : Int) :
    List Char → Int
  | [] => acc
  | c :: rest =>
    if isD c then digitsGo base isD val (acc * base + (val c : Int)) rest else acc

/-- `parseInt` digit run: `none` (NaN) when no leading digit exists. -/
def digitsVal (base : Int) (isD : Char → Bool) (val : Char → Nat) :
    List Char → Option Int
  | [] => none
  | c :: rest =>
    if isD c then some (digitsGo base isD val (val c : Int) rest) else none

/-- Hex digit test for `parseInt`'s `0x` form. -/
def isHexDigitChar (c : Char) : Bool :=
  c.isDigit || ('a' ≤ c && c ≤ 'f') || ('A' ≤ c && c ≤ 'F')

/-- Hex digit value. -/
def hexDigitVal (c : Char) : Nat :=
  if c.isDigit then c.toNat - 48
  else if 'a' ≤ c && c ≤ 'f' then c.toNat - 87
  else c.toNat - 55

/-- The unsigned part of `parseInt` with unspecified radix: a `0x`/`0X`
run is hexadecimal, anything else decimal. -/
def parseUnsignedInt (cs : List Char) : Option Int :=
  match cs with
  | '0' :: 'x' :: rest => digitsVal 16 isHexDigitChar hexDigitVal rest
  | '0' :: 'X' :: rest => digitsVal 16 isHexDigitChar hexDigitVal rest
  | _ => digitsVal 10 Char.isDigit (fun c => c.toNat - 48) cs

/-- JS `parseInt(s)` (radix unspecified): skip whitespace, optional sign,
then a digit run; `none` models `NaN`. -/
def jsParseIntChars (cs : List Char) : Option Int :=
  match cs.dropWhile isJsWs with
  | '-' :: rest => (parseUnsignedInt rest).map (fun n => -n)
  | '+' :: rest => parseUnsignedInt rest
  | other => parseUnsignedInt other

/-- `parseInt(message.substr(0, 3))` applied to a received (already
trimmed) SMTP line. -/
def parseCode (message : String) : Option Int :=
  jsParseIntChars (message.toList.take 3)

/-- The mutable state of one `performSMTPCheck` session: the protocol
`step`, the accumulated `response` transcript, the strings actually
transmitted on the socket (`wire`), every `socket.write` call attempted
(`attempted`), and the Node `socket.destroyed` flag. -/
structure SmtpConn where
  step : Nat := 0
  response : String := ""
  wire : List String := []
  attempted : List String := []
  destroyed : Bool := false
  deriving DecidableEq

/-- `socket.write(cmd)`: the bytes reach the server only when the socket
has not been destroyed; writing after `destroy()` merely schedules an
asynchronous `ERR_STREAM_DESTROYED` error and transmits nothing. -/
def connWrite (c : SmtpConn) (cmd : String) : SmtpConn :=
  { c with
    attempted := c.attempted ++ [cmd],
    wire := if c.destroyed then c.wire else c.wire ++ [cmd] }

/-- `cleanup()`: clear the watchdog timer and destroy the socket if not
already destroyed. -/
def connCleanup (c : SmtpConn) : SmtpConn :=
  { c with destroyed := true }

/-- One `socket.on('data', ...)` event of `performSMTPCheck`: trim the
chunk, append it to the transcript, parse the 3-digit code, and drive the
`switch (step)` protocol machine.  A `some` result is the value passed to
`resolve`. -/
def smtpData (cfg : Config) (email : String) (c : SmtpConn) (data : String) :
    SmtpConn × Option CheckResult :=
  let message := jsTrim data
  let response := c.response ++ message ++ "\n"
  let c := { c with response := response }
  let code := parseCode message
  match c.step with
  | 0 =>
    if code = some 220 then
      (connWrite { c with step := 1 } ("HELO " ++ cfg.hostname ++ "\r\n"), none)
    else
      (connCleanup c,
       some { passed := false, message := "Connection rejected: " ++ message,
              response := jsTrim response })
  | 1 =>
    if code = some 250 then
      (connWrite { c with step := 2 } ("MAIL FROM:<" ++ cfg.fromEmail ++ ">\r\n"), none)
    else
      (connCleanup c,
       some { passed := false, message := "HELO rejected: " ++ message,
              response := jsTrim response })
  | 2 =>
    if code = some 250 then
      (connWrite { c with step := 3 } ("RCPT TO:<" ++ email ++ ">\r\n"), none)
    else
      (connCleanup c,
       some { passed := false, message := "MAIL FROM rejected: " ++ message,
              response := jsTrim response })
  | 3 =>
    let c := connCleanup c
    let c := connWrite c "QUIT\r\n"
    if code = some 250 then
      (c, some { passed := true, message := "Email address accepted by SMTP server",
                 response := jsTrim response })
    else if code = some 550 ∨ code = some 551 ∨ code = some 553 then
      (c, some { passed := false, message := "Email address rejected: " ++ message,
                 response := jsTrim response })
    else if code = some 450 ∨ code = some 451 ∨ code = some 452 then
      (c, some { passed := false,
                 message := "Temporary failure (possible greylisting): " ++ message,
                 response := jsTrim response })
    else
      (c, some { passed := false, message := "Unexpected response: " ++ message,
                 response := jsTrim response })
  | _ => (c, none)

/-- Feed a scripted sequence of server data events through the session
machine, stopping at the first resolution.  `none` means the script ran
out without reaching a terminal state (in the running program the
watchdog would then reject with a timeout). -/
def runSMTPSession (cfg : Config) (email : String) (c : SmtpConn) :
    List String → SmtpConn × Option CheckResult
  | [] => (c, none)
  | d :: rest =>
    match smtpData cfg email c d with
    | (c', some r) => (c', some r)
    | (c', none) => runSMTPSession cfg email c' rest

/-- `performSMTPCheck(email, mxServer)` against a scripted server: run
the session from the fresh socket state. -/
def performSMTPCheck (cfg : Config) (email : String) (script : List String) :
    SmtpConn × Option CheckResult :=
  runSMTPSession cfg email {} script

/-- The probe events one retry round is expected to emit: the hosts in
list order. -/
def roundTrace (attempt : Nat) (records : List MxRecord) : List SmtpEvent :=
  records.map (fun m => SmtpEvent.probeHost attempt m.exchange)

/-- Event classifier: a between-round pause. -/
def isSleepEvent : SmtpEvent → Bool
  | .sleep _ => true
  | .probeHost _ _ => false

/-- Event classifier: a host probe. -/
def isProbeEvent : SmtpEvent → Bool
  | .probeHost _ _ => true
  | .sleep _ => false

/-- A probe outcome the orchestrator moves past: a resolved failure or a
rejection. -/
def probeFailed : ProbeOutcome → Bool
  | .ok r => !r.passed
  | .err _ => true

/-- A test world in which the domain-stage promise rejects with an
arbitrary non-timeout error. -/
def wBoom : World :=
  { domainCtl := .rejects "boom",
    domainLookup := fun _ => .ok (),
    mxCtl := .completes,
    mxLookup := fun _ => .ok [],
    smtpCtl := .completes,
    probe := fun _ _ _ => .err "refused" }

/-- A test world in which every stage completes: the domain resolves, two
MX hosts exist (listed out of priority order), and probing the preferred
host resolves as accepted. -/
def wHappy : World :=
  { domainCtl := .completes,
    domainLookup := fun _ => .ok (),
    mxCtl := .completes,
    mxLookup := fun _ => .ok [⟨"mx2.example.com", 20⟩, ⟨"mx1.example.com", 10⟩],
    smtpCtl := .completes,
    probe := fun _ _ mx =>
      if mx.exchange = "mx1.example.com" then
        .ok { passed := true, message := "Email address accepted by SMTP server",
              response := "250 ok" }
      else .err "refused" }

/-- A test world identical to `wHappy` except that every SMTP probe
resolves as a mailbox rejection, so the SMTP check fails while syntax,
domain and MX pass. -/
def wSmtpReject : World :=
  { wHappy with
    probe := fun _ _ _ =>
      .ok { passed := false, message := "Email address rejected: 550 no mailbox",
            response := "550 no mailbox" } }

/-- A test world identical to `wHappy` except that the domain lookup
rejects, so the domain check fails and the pipeline stops there. -/
def wDomainFail : World :=
  { wHappy with domainLookup := fun _ => .error "ENOTFOUND" }

/-- A test world identical to `wHappy` except that the MX query resolves
with zero records, so the mx check fails and the pipeline stops there. -/
def wNoMx : World :=
  { wHappy with mxLookup := fun _ => .ok [] }

/-! ### Sanity checks of the embedding on concrete inputs -/

example :
    ((performSMTPCheck defaultConfig "u@d.com"
      ["220 mx ready", "250 hello", "250 sender ok", "250 recipient ok"]).2.map
        CheckResult.passed) = some true := by decide

example :
    (performSMTPCheck defaultConfig "u@d.com"
      ["220 mx ready", "250 hello", "250 sender ok", "550 no mailbox"]).2 =
    some { passed := false, message := "Email address rejected: 550 no mailbox",
           response := "220 mx ready\n250 hello\n250 sender ok\n550 no mailbox" } := by
  decide

example :
    (performSMTPCheck defaultConfig "u@d.com"
      ["220 mx ready", "250 hello", "250 sender ok", "250 recipient ok"]).1.wire =
    ["HELO localhost\r\n", "MAIL FROM:<test@example.com>\r\n",
     "RCPT TO:<u@d.com>\r\n"] := by decide

example : (validateSyntax "user@example.com").passed = true := by decide

example : (validateSyntax "not-an-email").message = "Email must contain exactly one @ symbol" := by decide

example : (validateSyntax "").message = "Email is required and must be a string" := by decide

example : (validateSyntax " user@example.com ").passed = true := by decide

example : parseEmail " user@example.com " = ⟨" user", "example.com "⟩ := by decide

example : (validateSyntax "us..er@example.com").message = "Local part cannot contain consecutive periods" := by decide

example : (validateSyntax "user@-example.com").passed = false := by decide

/-! ### Pipeline branch lemmas (shared) -/

theorem validateEmail_syntax_fail (cfg : Config) (w : World) (email : String)
    (h : (validateSyntax email).passed = false) :
    validateEmail cfg w email =
      { email := email, isValid := false,
        checks := { initChecks with syntaxCheck := validateSyntax email } } := by
  simp [validateEmail, h]

theorem validateEmail_domain_err (cfg : Config) (w : World) (email m : String)
    (hs : (validateSyntax email).passed = true)
    (hd : domainStage w email = .error m) :
    validateEmail cfg w email =
      errorReport email { initChecks with syntaxCheck := validateSyntax email } m := by
  simp [validateEmail, hs, hd]

theorem validateEmail_domain_fail (cfg : Config) (w : World) (email : String)
    (dr : CheckResult)
    (hs : (validateSyntax email).passed = true)
    (hd : domainStage w email = .ok dr) (hdp : dr.passed = false) :
    validateEmail cfg w email =
      { email := email, isValid := false,
        checks := { initChecks with
                    syntaxCheck := validateSyntax email,
                    domain := dr } } := by
  simp [validateEmail, hs, hd, hdp]

theorem validateEmail_mx_err (cfg : Config) (w : World) (email m : String)
    (dr : CheckResult)
    (hs : (validateSyntax email).passed = true)
    (hd : domainStage w email = .ok dr) (hdp : dr.passed = true)
    (hm : mxStage w email = .error m) :
    validateEmail cfg w email =
      errorReport email
        { initChecks with syntaxCheck := validateSyntax email, domain := dr } m := by
  simp [validateEmail, hs, hd, hdp, hm]

theorem validateEmail_mx_fail (cfg : Config) (w : World) (email : String)
    (dr mr : CheckResult)
    (hs : (validateSyntax email).passed = true)
    (hd : domainStage w email = .ok dr) (hdp : dr.passed = true)
    (hm : mxStage w email = .ok mr) (hmp : mr.passed = false) :
    validateEmail cfg w email =
      { email := email, isValid := false,
        checks := { initChecks with
                    syntaxCheck := validateSyntax email,
                    domain := dr, mx := mr } } := by
  simp [validateEmail, hs, hd, hdp, hm, hmp]

theorem validateEmail_smtp_err (cfg : Config) (w : World) (email m : String)
    (dr mr : CheckResult)
    (hs : (validateSyntax email).passed = true)
    (hd : domainStage w email = .ok dr) (hdp : dr.passed = true)
    (hm : mxStage w email = .ok mr) (hmp : mr.passed = true)
    (hsm : smtpStage cfg w email mr.records = .error m) :
    validateEmail cfg w email =
      errorReport email
        { initChecks with
          syntaxCheck := validateSyntax email, domain := dr, mx := mr } m := by
  simp [validateEmail, hs, hd, hdp, hm, hmp, hsm]

theorem validateEmail_smtp_done (cfg : Config) (w : World) (email : String)
    (dr mr sr : CheckResult)
    (hs : (validateSyntax email).passed = true)
    (hd : domainStage w email = .ok dr) (hdp : dr.passed = true)
    (hm : mxStage w email = .ok mr) (hmp : mr.passed = true)
    (hsm : smtpStage cfg w email mr.records = .ok sr) :
    validateEmail cfg w email =
      { email := email,
        isValid := sr.passed,
        checks := { syntaxCheck := validateSyntax email, domain := dr, mx := mr,
                    smtp := sr,
                    disposable := checkDisposable cfg (parseEmail email).domain,
                    roleBased := checkRoleBased cfg (parseEmail email).localPart } } := by
  simp [validateEmail, hs, hd, hdp, hm, hmp, hsm, initChecks]

/-! ### Claim C1 -/

/-- C1: in every report produced by `validateEmail`, `isValid` equals the
conjunction of the `passed` flags of the syntax, domain, mx and smtp
checks; and replacing the disposable-domain and role-based lists by any
others never changes `isValid` — the two advisory checks do not influence
it. -/
theorem c1_isValid_and_of_stage_checks (cfg : Config) (w : World) (email : String)
    (d r : List String) :
    ((validateEmail cfg w email).isValid =
      ((validateEmail cfg w email).checks.syntaxCheck.passed &&
       (validateEmail cfg w email).checks.domain.passed &&
       (validateEmail cfg w email).checks.mx.passed &&
       (validateEmail cfg w email).checks.smtp.passed)) ∧
    (validateEmail { cfg with disposableDomains := d, roleBasedNames := r } w
        email).isValid = (validateEmail cfg w email).isValid := by
  cases hs : (validateSyntax email).passed with
  | false =>
    rw [validateEmail_syntax_fail cfg w email hs,
        validateEmail_syntax_fail _ w email hs]
    simp [initChecks, hs]
  | true =>
    cases hd : domainStage w email with
    | error m =>
      rw [validateEmail_domain_err cfg w email m hs hd,
          validateEmail_domain_err _ w email m hs hd]
      simp [errorReport, initChecks]
    | ok dr =>
      cases hdp : dr.passed with
      | false =>
        rw [validateEmail_domain_fail cfg w email dr hs hd hdp,
            validateEmail_domain_fail _ w email dr hs hd hdp]
        simp [initChecks, hdp]
      | true =>
        cases hm : mxStage w email with
        | error m =>
          rw [validateEmail_mx_err cfg w email m dr hs hd hdp hm,
              validateEmail_mx_err _ w email m dr hs hd hdp hm]
          simp [errorReport, initChecks]
        | ok mr =>
          cases hmp : mr.passed with
          | false =>
            rw [validateEmail_mx_fail cfg w email dr mr hs hd hdp hm hmp,
                validateEmail_mx_fail _ w email dr mr hs hd hdp hm hmp]
            simp [initChecks, hmp]
          | true =>
            have hcfg :
                smtpStage { cfg with disposableDomains := d, roleBasedNames := r }
                  w email mr.records = smtpStage cfg w email mr.records := rfl
            cases hsm : smtpStage cfg w email mr.records with
            | error m =>
              rw [validateEmail_smtp_err cfg w email m dr mr hs hd hdp hm hmp hsm,
                  validateEmail_smtp_err _ w email m dr mr hs hd hdp hm hmp
                    (hcfg.trans hsm)]
              simp [errorReport, initChecks, hs, hdp, hmp]
            | ok sr =>
              rw [validateEmail_smtp_done cfg w email dr mr sr hs hd hdp hm hmp hsm,
                  validateEmail_smtp_done _ w email dr mr sr hs hd hdp hm hmp
                    (hcfg.trans hsm)]
              simp [hs, hdp, hmp]

/-! ### Claim C2 -/

/-- C2: `validateEmail` lets no exception escape.  A raced stage whose
timer fires first settles as a failed `CheckResult` carrying the timeout
message (and so does a rejection that carries exactly that message); a
rejection with any other message, at any of the three raced stages,
reaches the top-level catch, which still returns a well-formed report —
for the given email, not valid, with the error message recorded in the
syntax check's message field. -/
theorem c2_exceptions_converted :
    (∀ (v : CheckResult) (tmsg : String),
        withTimeout .timerWins v tmsg =
          .ok { passed := false, message := tmsg, records := [] } ∧
        withTimeout (.rejects tmsg) v tmsg =
          .ok { passed := false, message := tmsg, records := [] }) ∧
    (∀ (cfg : Config) (w : World) (email : String),
        (validateEmail cfg w email).email = email) ∧
    (∀ (cfg : Config) (w : World) (email m : String),
        (validateSyntax email).passed = true →
        domainStage w email = .error m →
        (validateEmail cfg w email).isValid = false ∧
        (validateEmail cfg w email).checks.syntaxCheck.message =
          "Validation error: " ++ m) ∧
    (∀ (cfg : Config) (w : World) (email m : String) (dr : CheckResult),
        (validateSyntax email).passed = true →
        domainStage w email = .ok dr → dr.passed = true →
        mxStage w email = .error m →
        (validateEmail cfg w email).isValid = false ∧
        (validateEmail cfg w email).checks.syntaxCheck.message =
          "Validation error: " ++ m) ∧
    (∀ (cfg : Config) (w : World) (email m : String) (dr mr : CheckResult),
        (validateSyntax email).passed = true →
        domainStage w email = .ok dr → dr.passed = true →
        mxStage w email = .ok mr → mr.passed = true →
        smtpStage cfg w email mr.records = .error m →
        (validateEmail cfg w email).isValid = false ∧
        (validateEmail cfg w email).checks.syntaxCheck.message =
          "Validation error: " ++ m) := by
  refine ⟨fun v tmsg => ⟨rfl, by simp [withTimeout]⟩, ?_, ?_, ?_, ?_⟩
  · intro cfg w email
    simp only [validateEmail]
    repeat' split
    all_goals simp [errorReport]
  · intro cfg w email m hs hd
    rw [validateEmail_domain_err cfg w email m hs hd]
    simp [errorReport, initChecks]
  · intro cfg w email m dr hs hd hdp hm
    rw [validateEmail_mx_err cfg w email m dr hs hd hdp hm]
    simp [errorReport, initChecks]
  · intro cfg w email m dr mr hs hd hdp hm hmp hsm
    rw [validateEmail_smtp_err cfg w email m dr mr hs hd hdp hm hmp hsm]
    simp [errorReport, initChecks]

/-- Witness for C2: in a concrete world whose domain stage rejects with
"boom", the pipeline returns a failed report carrying the message. -/
theorem c2_exceptions_converted_witness :
    (validateEmail defaultConfig wBoom "user@example.com").isValid = false ∧
    (validateEmail defaultConfig wBoom "user@example.com").checks.syntaxCheck.message =
      "Validation error: boom" :=
  c2_exceptions_converted.2.2.1 defaultConfig wBoom "user@example.com" "boom"
    (by decide) rfl

/-! ### Claim C3 -/

/-- C3: a failed syntax, domain or mx check makes `validateEmail` return
immediately — the report equals the early-return form in which every
later check is untouched, and (for syntax) the result is independent of
the outside world; a failed smtp check does not short-circuit — the
disposable and role-based heuristics still run and the full report is
assembled with `isValid = false`. -/
theorem c3_short_circuit_and_smtp_continues :
    (∀ (cfg : Config) (w w' : World) (email : String),
        (validateSyntax email).passed = false →
        validateEmail cfg w email =
          { email := email, isValid := false,
            checks := { initChecks with syntaxCheck := validateSyntax email } } ∧
        validateEmail cfg w email = validateEmail cfg w' email) ∧
    (∀ (cfg : Config) (w : World) (email : String) (dr : CheckResult),
        (validateSyntax email).passed = true →
        domainStage w email = .ok dr → dr.passed = false →
        validateEmail cfg w email =
          { email := email, isValid := false,
            checks := { initChecks with
                        syntaxCheck := validateSyntax email, domain := dr } }) ∧
    (∀ (cfg : Config) (w : World) (email : String) (dr mr : CheckResult),
        (validateSyntax email).passed = true →
        domainStage w email = .ok dr → dr.passed = true →
        mxStage w email = .ok mr → mr.passed = false →
        validateEmail cfg w email =
          { email := email, isValid := false,
            checks := { initChecks with
                        syntaxCheck := validateSyntax email, domain := dr,
                        mx := mr } }) ∧
    (∀ (cfg : Config) (w : World) (email : String) (dr mr sr : CheckResult),
        (validateSyntax email).passed = true →
        domainStage w email = .ok dr → dr.passed = true →
        mxStage w email = .ok mr → mr.passed = true →
        smtpStage cfg w email mr.records = .ok sr → sr.passed = false →
        (validateEmail cfg w email).checks.disposable =
          checkDisposable cfg (parseEmail email).domain ∧
        (validateEmail cfg w email).checks.roleBased =
          checkRoleBased cfg (parseEmail email).localPart ∧
        (validateEmail cfg w email).checks.smtp = sr ∧
        (validateEmail cfg w email).isValid = false) := by
  refine ⟨?_, ?_, ?_, ?_⟩
  · intro cfg w w' email h
    exact ⟨validateEmail_syntax_fail cfg w email h,
      (validateEmail_syntax_fail cfg w email h).trans
        (validateEmail_syntax_fail cfg w' email h).symm⟩
  · intro cfg w email dr hs hd hdp
    exact validateEmail_domain_fail cfg w email dr hs hd hdp
  · intro cfg w email dr mr hs hd hdp hm hmp
    exact validateEmail_mx_fail cfg w email dr mr hs hd hdp hm hmp
  · intro cfg w email dr mr sr hs hd hdp hm hmp hsm hsp
    rw [validateEmail_smtp_done cfg w email dr mr sr hs hd hdp hm hmp hsm]
    simp [hsp]

/-- Witness for C3: with syntax, domain and MX passing and every SMTP
probe resolving as a rejection, the heuristics still run and the report
carries the orchestrator's failure with `isValid = false`. -/
theorem c3_short_circuit_witness :
    (validateEmail defaultConfig wSmtpReject "user@example.com").checks.disposable =
      checkDisposable defaultConfig (parseEmail "user@example.com").domain ∧
    (validateEmail defaultConfig wSmtpReject "user@example.com").checks.roleBased =
      checkRoleBased defaultConfig (parseEmail "user@example.com").localPart ∧
    (validateEmail defaultConfig wSmtpReject "user@example.com").checks.smtp =
      smtpFailAll ∧
    (validateEmail defaultConfig wSmtpReject "user@example.com").isValid = false :=
  c3_short_circuit_and_smtp_continues.2.2.2 defaultConfig wSmtpReject
    "user@example.com"
    { passed := true, message := "Domain exists and is resolvable" }
    (validateMX (.ok [⟨"mx2.example.com", 20⟩, ⟨"mx1.example.com", 10⟩]))
    smtpFailAll (by decide) rfl rfl rfl (by decide) rfl rfl

/-! ### Claim C10 -/

/-- C10: every early return leaves the unreached checks at their
initialized values — in particular the never-evaluated disposable and
role-based heuristics still read `passed = true` with an empty message,
and unreached network checks read `passed = false` with an empty
message. -/
theorem c10_early_returns_keep_initial_checks :
    (∀ (cfg : Config) (w : World) (email : String),
        (validateSyntax email).passed = false →
        (validateEmail cfg w email).checks.disposable =
          { passed := true, message := "" } ∧
        (validateEmail cfg w email).checks.roleBased =
          { passed := true, message := "" } ∧
        (validateEmail cfg w email).checks.domain =
          { passed := false, message := "" } ∧
        (validateEmail cfg w email).checks.mx = { passed := false, message := "" } ∧
        (validateEmail cfg w email).checks.smtp =
          { passed := false, message := "" }) ∧
    (∀ (cfg : Config) (w : World) (email : String) (dr : CheckResult),
        (validateSyntax email).passed = true →
        domainStage w email = .ok dr → dr.passed = false →
        (validateEmail cfg w email).checks.disposable =
          { passed := true, message := "" } ∧
        (validateEmail cfg w email).checks.roleBased =
          { passed := true, message := "" } ∧
        (validateEmail cfg w email).checks.mx = { passed := false, message := "" } ∧
        (validateEmail cfg w email).checks.smtp =
          { passed := false, message := "" }) ∧
    (∀ (cfg : Config) (w : World) (email : String) (dr mr : CheckResult),
        (validateSyntax email).passed = true →
        domainStage w email = .ok dr → dr.passed = true →
        mxStage w email = .ok mr → mr.passed = false →
        (validateEmail cfg w email).checks.disposable =
          { passed := true, message := "" } ∧
        (validateEmail cfg w email).checks.roleBased =
          { passed := true, message := "" } ∧
        (validateEmail cfg w email).checks.smtp =
          { passed := false, message := "" }) := by
  refine ⟨?_, ?_, ?_⟩
  · intro cfg w email h
    rw [validateEmail_syntax_fail cfg w email h]
    simp [initChecks]
  · intro cfg w email dr hs hd hdp
    rw [validateEmail_domain_fail cfg w email dr hs hd hdp]
    simp [initChecks]
  · intro cfg w email dr mr hs hd hdp hm hmp
    rw [validateEmail_mx_fail cfg w email dr mr hs hd hdp hm hmp]
    simp [initChecks]

/-- Witness for C10: a concrete domain-stage failure leaves the
heuristics at their initialized `passed = true` values. -/
theorem c10_early_returns_witness :
    (validateEmail defaultConfig wDomainFail "user@example.com").checks.disposable =
      { passed := true, message := "" } ∧
    (validateEmail defaultConfig wDomainFail "user@example.com").checks.roleBased =
      { passed := true, message := "" } ∧
    (validateEmail defaultConfig wDomainFail "user@example.com").checks.mx =
      { passed := false, message := "" } ∧
    (validateEmail defaultConfig wDomainFail "user@example.com").checks.smtp =
      { passed := false, message := "" } :=
  c10_early_returns_keep_initial_checks.2.1 defaultConfig wDomainFail
    "user@example.com"
    { passed := false, message := "Domain lookup failed: ENOTFOUND" }
    (by decide) rfl rfl

/-! ### Claim C8 -/

/-- Trimming never touches `@`: the leading whitespace run contains no
`@`, so the count is preserved. -/
theorem count_at_dropWhile (cs : List Char) :
    (cs.dropWhile isJsWs).count '@' = cs.count '@' := by
  conv_rhs => rw [← List.takeWhile_append_dropWhile isJsWs cs]
  rw [List.count_append]
  have h : (cs.takeWhile isJsWs).count '@' = 0 := by
    rw [List.count_eq_zero]
    intro hmem
    have := List.mem_takeWhile_imp (p := isJsWs) hmem
    simp [isJsWs] at this
  omega

/-- Trimming never touches `@`, right-hand side. -/
theorem count_at_trimChars (cs : List Char) :
    (trimChars cs).count '@' = cs.count '@' := by
  unfold trimChars List.rdropWhile
  rw [List.count_reverse, count_at_dropWhile, List.count_reverse,
    count_at_dropWhile]

/-- Counterexample to C8 as stated: the empty string contains zero `@`
characters, yet its syntax failure message is the missing-input message,
not the exactly-one-`@` message. -/
theorem c8_counterexample :
    ("".toList.count '@' = 0) ∧
    validateSyntax "" =
      { passed := false, message := "Email is required and must be a string" } ∧
    "Email is required and must be a string" ≠
      "Email must contain exactly one @ symbol" := by
  exact ⟨by decide, by decide, by decide⟩

/-- C8 amended: for every NON-EMPTY input string whose `@` count differs
from one, the syntax check fails with the exactly-one-`@` message, the
pipeline returns the early report with every later check untouched, and
the outcome is independent of the outside world (no later check runs). -/
theorem c8_amended_one_at_rule (cfg : Config) (w w' : World) (email : String)
    (hne : email ≠ "") (hat : email.toList.count '@' ≠ 1) :
    validateSyntax email =
      { passed := false, message := "Email must contain exactly one @ symbol" } ∧
    validateEmail cfg w email =
      { email := email, isValid := false,
        checks := { initChecks with syntaxCheck := validateSyntax email } } ∧
    validateEmail cfg w email = validateEmail cfg w' email := by
  have ht : (trimChars email.toList).count '@' ≠ 1 := by
    rw [count_at_trimChars]; exact hat
  have hv : validateSyntax email =
      { passed := false, message := "Email must contain exactly one @ symbol" } := by
    simp [validateSyntax, hne, ht]
    exact fun h => absurd h ht
  have hp : (validateSyntax email).passed = false := by rw [hv]
  exact ⟨hv, validateEmail_syntax_fail cfg w email hp,
    (validateEmail_syntax_fail cfg w email hp).trans
      (validateEmail_syntax_fail cfg w' email hp).symm⟩

/-- Witness for the amended C8 at a concrete two-`@` input. -/
theorem c8_amended_witness :
    validateSyntax "a@b@c" =
      { passed := false, message := "Email must contain exactly one @ symbol" } ∧
    validateEmail defaultConfig wHappy "a@b@c" =
      { email := "a@b@c", isValid := false,
        checks := { initChecks with syntaxCheck := validateSyntax "a@b@c" } } ∧
    validateEmail defaultConfig wHappy "a@b@c" =
      validateEmail defaultConfig wBoom "a@b@c" :=
  c8_amended_one_at_rule defaultConfig wHappy wBoom "a@b@c" (by decide) (by decide)

/-! ### Claim C6 -/

/-- `validateMX` on a passed outcome: the records are sorted by priority
and the message reports their count. -/
theorem validateMX_sorted (res : Except String (List MxRecord))
    (h : (validateMX res).passed = true) :
    List.Sorted byPriority (validateMX res).records ∧
    (validateMX res).message =
      "Found " ++ toString (validateMX res).records.length ++ " MX record(s)" := by
  cases res with
  | error e => simp [validateMX] at h
  | ok recs =>
    by_cases he : recs.isEmpty
    · simp [validateMX, he] at h
    · simp [validateMX, he]
      exact List.sorted_insertionSort byPriority recs

/-- A passed result of the raced MX stage can only be the resolved value
of `validateMX` (the timeout conversions are failed results, and a
rethrown error is not an `.ok`). -/
theorem mxStage_ok_passed (w : World) (email : String) (mr : CheckResult)
    (hm : mxStage w email = .ok mr) (hp : mr.passed = true) :
    mr = validateMX (w.mxLookup (parseEmail email).domain) := by
  unfold mxStage withTimeout at hm
  cases hctl : w.mxCtl with
  | completes =>
    simp only [hctl] at hm
    exact (Except.ok.inj hm).symm
  | timerWins =>
    simp only [hctl] at hm
    injection hm with h
    rw [← h] at hp
    simp at hp
  | rejects m =>
    simp only [hctl] at hm
    split at hm
    · injection hm with h
      rw [← h] at hp
      simp at hp
    · exact absurd hm (by simp)

/-- Whenever the report's mx check passed, it is exactly the `validateMX`
result for the parsed domain. -/
theorem validateEmail_mx_of_passed (cfg : Config) (w : World) (email : String)
    (h : (validateEmail cfg w email).checks.mx.passed = true) :
    (validateEmail cfg w email).checks.mx =
      validateMX (w.mxLookup (parseEmail email).domain) := by
  cases hs : (validateSyntax email).passed with
  | false =>
    rw [validateEmail_syntax_fail cfg w email hs] at h
    simp [initChecks] at h
  | true =>
    cases hd : domainStage w email with
    | error m =>
      rw [validateEmail_domain_err cfg w email m hs hd] at h
      simp [errorReport, initChecks] at h
    | ok dr =>
      cases hdp : dr.passed with
      | false =>
        rw [validateEmail_domain_fail cfg w email dr hs hd hdp] at h
        simp [initChecks] at h
      | true =>
        cases hm : mxStage w email with
        | error m =>
          rw [validateEmail_mx_err cfg w email m dr hs hd hdp hm] at h
          simp [errorReport, initChecks] at h
        | ok mr =>
          cases hmp : mr.passed with
          | false =>
            rw [validateEmail_mx_fail cfg w email dr mr hs hd hdp hm hmp] at h
            simp [initChecks, hmp] at h
          | true =>
            have hmx := mxStage_ok_passed w email mr hm hmp
            cases hsm : smtpStage cfg w email mr.records with
            | error m =>
              rw [validateEmail_smtp_err cfg w email m dr mr hs hd hdp hm hmp hsm]
              simpa [errorReport, initChecks] using hmx
            | ok sr =>
              rw [validateEmail_smtp_done cfg w email dr mr sr hs hd hdp hm hmp hsm]
              simpa using hmx

/-- C6: whenever the mx check of a report passed, its records are sorted
non-decreasing by priority and its message reports the count found; a
query error and a zero-record answer both produce a failed check with an
explanatory message and no records. -/
theorem c6_mx_sorted_counted_or_failed :
    (∀ (cfg : Config) (w : World) (email : String),
        (validateEmail cfg w email).checks.mx.passed = true →
        List.Sorted byPriority (validateEmail cfg w email).checks.mx.records ∧
        (validateEmail cfg w email).checks.mx.message =
          "Found " ++
            toString (validateEmail cfg w email).checks.mx.records.length ++
            " MX record(s)") ∧
    (∀ e : String,
        validateMX (.error e) =
          { passed := false, message := "MX record lookup failed: " ++ e,
            records := [] }) ∧
    validateMX (.ok []) =
      { passed := false, message := "No MX records found for domain",
        records := [] } := by
  refine ⟨?_, fun e => rfl, rfl⟩
  intro cfg w email h
  have heq := validateEmail_mx_of_passed cfg w email h
  rw [heq] at h ⊢
  exact validateMX_sorted _ h

/-- Witness for C6: in the happy-path world the mx check passes with the
two configured hosts sorted into priority order and counted. -/
theorem c6_mx_sorted_witness :
    List.Sorted byPriority
      (validateEmail defaultConfig wHappy "user@example.com").checks.mx.records ∧
    (validateEmail defaultConfig wHappy "user@example.com").checks.mx.message =
      "Found " ++
        toString
          (validateEmail defaultConfig wHappy
            "user@example.com").checks.mx.records.length ++
        " MX record(s)" :=
  c6_mx_sorted_counted_or_failed.1 defaultConfig wHappy "user@example.com"
    (by decide)

/-! ### Claim C4 -/

/-- C4: in the RcptSent state (`step = 3`), the RCPT reply code is
classified exactly as claimed: 250 accepts with the fixed message;
550/551/553 reject with an "Email address rejected:" message; 450/451/452
fail with a "Temporary failure (possible greylisting):" message; every
other code (including an unparsable one) fails with an "Unexpected
response:" message. -/
theorem c4_rcpt_classification (cfg : Config) (email : String) (c : SmtpConn)
    (data : String) (h3 : c.step = 3) :
    (parseCode (jsTrim data) = some 250 →
      (smtpData cfg email c data).2.map CheckResult.passed = some true ∧
      (smtpData cfg email c data).2.map CheckResult.message =
        some "Email address accepted by SMTP server") ∧
    ((parseCode (jsTrim data) = some 550 ∨ parseCode (jsTrim data) = some 551 ∨
        parseCode (jsTrim data) = some 553) →
      (smtpData cfg email c data).2.map CheckResult.passed = some false ∧
      (smtpData cfg email c data).2.map CheckResult.message =
        some ("Email address rejected: " ++ jsTrim data)) ∧
    ((parseCode (jsTrim data) = some 450 ∨ parseCode (jsTrim data) = some 451 ∨
        parseCode (jsTrim data) = some 452) →
      (smtpData cfg email c data).2.map CheckResult.passed = some false ∧
      (smtpData cfg email c data).2.map CheckResult.message =
        some ("Temporary failure (possible greylisting): " ++ jsTrim data)) ∧
    (parseCode (jsTrim data) ≠ some 250 → parseCode (jsTrim data) ≠ some 550 →
      parseCode (jsTrim data) ≠ some 551 → parseCode (jsTrim data) ≠ some 553 →
      parseCode (jsTrim data) ≠ some 450 → parseCode (jsTrim data) ≠ some 451 →
      parseCode (jsTrim data) ≠ some 452 →
      (smtpData cfg email c data).2.map CheckResult.passed = some false ∧
      (smtpData cfg email c data).2.map CheckResult.message =
        some ("Unexpected response: " ++ jsTrim data)) := by
  refine ⟨?_, ?_, ?_, ?_⟩
  · intro hc
    simp [smtpData, h3, hc]
  · rintro (hc | hc | hc) <;> simp [smtpData, h3, hc]
  · rintro (hc | hc | hc) <;> simp [smtpData, h3, hc]
  · intro h1 h2 h3' h4 h5 h6 h7
    simp [smtpData, h3, h1, h2, h3', h4, h5, h6, h7]

/-- Witness for C4: a concrete 550 reply in the RcptSent state resolves
as a rejection carrying the reply line. -/
theorem c4_rcpt_classification_witness :
    (smtpData defaultConfig "u@d.com" { step := 3 } "550 user unknown").2.map
      CheckResult.passed = some false ∧
    (smtpData defaultConfig "u@d.com" { step := 3 } "550 user unknown").2.map
      CheckResult.message =
      some ("Email address rejected: " ++ jsTrim "550 user unknown") :=
  (c4_rcpt_classification defaultConfig "u@d.com" { step := 3 }
      "550 user unknown" rfl).2.1 (Or.inl (by decide))

/-! ### Claim C7 -/

/-- C7 is contradicted by the code: in the RcptSent state the handler
calls `cleanup()` — which destroys the socket — BEFORE `socket.write
('QUIT\r\n')`, so the QUIT command never reaches the server (writing to a
destroyed Node socket transmits nothing and only schedules an
asynchronous error).  For every terminal RCPT classification the session
does resolve and the socket is destroyed, the write of QUIT is attempted,
but the wire content is unchanged — QUIT is not sent. -/
theorem c7_quit_never_transmitted (cfg : Config) (email : String) (c : SmtpConn)
    (data : String) (h3 : c.step = 3) :
    (smtpData cfg email c data).1.destroyed = true ∧
    (smtpData cfg email c data).1.wire = c.wire ∧
    (smtpData cfg email c data).1.attempted = c.attempted ++ ["QUIT\r\n"] ∧
    (smtpData cfg email c data).2.isSome = true := by
  refine ⟨?_, ?_, ?_, ?_⟩ <;>
    · simp only [smtpData, h3, connCleanup, connWrite]
      repeat' split
      all_goals simp_all

/-- Witness for C7: the concrete session state reached after the
`220/250/250` exchanges, receiving the final accepting `250`: the socket
is destroyed first, QUIT is only attempted, and nothing new reaches the
wire.  The final conjunct re-runs the whole scripted session: the full
transcript of transmitted commands ends at `RCPT TO` — no QUIT. -/
theorem c7_quit_never_transmitted_witness :
    ((smtpData defaultConfig "user@example.com"
        { step := 3, response := "220 ok\n250 ok\n250 ok\n",
          wire := ["HELO localhost\r\n", "MAIL FROM:<test@example.com>\r\n",
                   "RCPT TO:<user@example.com>\r\n"],
          attempted := ["HELO localhost\r\n", "MAIL FROM:<test@example.com>\r\n",
                        "RCPT TO:<user@example.com>\r\n"],
          destroyed := false } "250 ok").1.destroyed = true ∧
      (smtpData defaultConfig "user@example.com"
        { step := 3, response := "220 ok\n250 ok\n250 ok\n",
          wire := ["HELO localhost\r\n", "MAIL FROM:<test@example.com>\r\n",
                   "RCPT TO:<user@example.com>\r\n"],
          attempted := ["HELO localhost\r\n", "MAIL FROM:<test@example.com>\r\n",
                        "RCPT TO:<user@example.com>\r\n"],
          destroyed := false } "250 ok").1.wire =
        ["HELO localhost\r\n", "MAIL FROM:<test@example.com>\r\n",
         "RCPT TO:<user@example.com>\r\n"] ∧
      (smtpData defaultConfig "user@example.com"
        { step := 3, response := "220 ok\n250 ok\n250 ok\n",
          wire := ["HELO localhost\r\n", "MAIL FROM:<test@example.com>\r\n",
                   "RCPT TO:<user@example.com>\r\n"],
          attempted := ["HELO localhost\r\n", "MAIL FROM:<test@example.com>\r\n",
                        "RCPT TO:<user@example.com>\r\n"],
          destroyed := false } "250 ok").1.attempted =
        ["HELO localhost\r\n", "MAIL FROM:<test@example.com>\r\n",
         "RCPT TO:<user@example.com>\r\n", "QUIT\r\n"] ∧
      (smtpData defaultConfig "user@example.com"
        { step := 3, response := "220 ok\n250 ok\n250 ok\n",
          wire := ["HELO localhost\r\n", "MAIL FROM:<test@example.com>\r\n",
                   "RCPT TO:<user@example.com>\r\n"],
          attempted := ["HELO localhost\r\n", "MAIL FROM:<test@example.com>\r\n",
                        "RCPT TO:<user@example.com>\r\n"],
          destroyed := false } "250 ok").2.isSome = true) ∧
    (performSMTPCheck defaultConfig "user@example.com"
        ["220 ok", "250 ok", "250 ok", "250 ok"]).1.wire =
      ["HELO localhost\r\n", "MAIL FROM:<test@example.com>\r\n",
       "RCPT TO:<user@example.com>\r\n"] :=
  ⟨c7_quit_never_transmitted defaultConfig "user@example.com"
      { step := 3, response := "220 ok\n250 ok\n250 ok\n",
        wire := ["HELO localhost\r\n", "MAIL FROM:<test@example.com>\r\n",
                 "RCPT TO:<user@example.com>\r\n"],
        attempted := ["HELO localhost\r\n", "MAIL FROM:<test@example.com>\r\n",
                      "RCPT TO:<user@example.com>\r\n"],
        destroyed := false } "250 ok" rfl,
    by decide⟩

/-! ### Claim C5 -/

/-- A round trace consists of probe events only. -/
theorem roundTrace_filter_probe (a : Nat) (records : List MxRecord) :
    (roundTrace a records).filter isProbeEvent = roundTrace a records := by
  apply List.filter_eq_self.mpr
  intro x hx
  simp only [roundTrace, List.mem_map] at hx
  obtain ⟨m, _, rfl⟩ := hx
  rfl

/-- A round trace contains no sleep events. -/
theorem roundTrace_filter_sleep (a : Nat) (records : List MxRecord) :
    (roundTrace a records).filter isSleepEvent = [] := by
  apply List.filter_eq_nil_iff.mpr
  intro x hx
  simp only [roundTrace, List.mem_map] at hx
  obtain ⟨m, _, rfl⟩ := hx
  simp [isSleepEvent]

/-- A round over hosts that all fail (resolved failure or rejection)
returns no result and probes every host in list order. -/
theorem runRound_all_failed (probe : Nat → MxRecord → ProbeOutcome) (a : Nat)
    (records : List MxRecord)
    (h : ∀ mx ∈ records, probeFailed (probe a mx) = true) :
    runRound probe a records = (none, roundTrace a records) := by
  induction records with
  | nil => simp [runRound, roundTrace]
  | cons mx rest ih =>
    have hmx := h mx (by simp)
    have hrest : ∀ m ∈ rest, probeFailed (probe a m) = true :=
      fun m hm => h m (by simp [hm])
    cases hp : probe a mx with
    | ok r =>
      have hr : r.passed = false := by
        rw [hp] at hmx
        simpa [probeFailed] using hmx
      simp [runRound, hp, hr, ih hrest, roundTrace]
    | err e =>
      simp [runRound, hp, ih hrest, roundTrace]

/-- The first host whose probe resolves `passed=true` stops the round:
the result is that host's, and exactly the hosts up to it were probed, in
list order. -/
theorem runRound_first_success (probe : Nat → MxRecord → ProbeOutcome) (a : Nat)
    (pre post : List MxRecord) (mx : MxRecord) (r : CheckResult)
    (hpre : ∀ m ∈ pre, probeFailed (probe a m) = true)
    (hmx : probe a mx = .ok r) (hr : r.passed = true) :
    runRound probe a (pre ++ mx :: post) = (some r, roundTrace a (pre ++ [mx])) := by
  induction pre with
  | nil => simp [runRound, hmx, hr, roundTrace]
  | cons p rest ih =>
    have hp := hpre p (by simp)
    have hrest : ∀ m ∈ rest, probeFailed (probe a m) = true :=
      fun m hm => hpre m (by simp [hm])
    cases hpp : probe a p with
    | ok rp =>
      have hrp : rp.passed = false := by
        rw [hpp] at hp
        simpa [probeFailed] using hp
      simp [runRound, hpp, hrp, ih hrest, roundTrace]
    | err e =>
      simp [runRound, hpp, ih hrest, roundTrace]

/-- One-step unfolding of the retry loop for a positive number of
remaining rounds. -/
theorem validateSMTPGo_succ (probe : Nat → MxRecord → ProbeOutcome)
    (records : List MxRecord) (total attempt n : Nat) :
    validateSMTPGo probe records total attempt (n + 1) =
      match runRound probe attempt records with
      | (some r, evs) => (r, evs)
      | (none, evs) =>
        if attempt + 1 < total then
          ((validateSMTPGo probe records total (attempt + 1) n).1,
            evs ++ SmtpEvent.sleep 1000 ::
              (validateSMTPGo probe records total (attempt + 1) n).2)
        else
          ((validateSMTPGo probe records total (attempt + 1) n).1,
            evs ++ (validateSMTPGo probe records total (attempt + 1) n).2) := rfl

/-- When every probe of every round fails, the retry loop returns the
fallthrough result; its trace is the per-round host lists in order with a
1000 ms sleep after every non-final round. -/
theorem validateSMTPGo_all_failed (probe : Nat → MxRecord → ProbeOutcome)
    (records : List MxRecord) (total : Nat)
    (h : ∀ a mx, mx ∈ records → probeFailed (probe a mx) = true) :
    ∀ (remaining attempt : Nat), attempt + remaining = total →
    (validateSMTPGo probe records total attempt remaining).1 = smtpFailAll ∧
    (validateSMTPGo probe records total attempt remaining).2.filter isProbeEvent =
      (List.range' attempt remaining).flatMap (fun a => roundTrace a records) ∧
    (validateSMTPGo probe records total attempt remaining).2.filter isSleepEvent =
      List.replicate (remaining - 1) (SmtpEvent.sleep 1000) := by
  intro remaining
  induction remaining with
  | zero =>
    intro attempt _
    simp [validateSMTPGo]
  | succ n ih =>
    intro attempt htot
    have hround := runRound_all_failed probe attempt records
      (fun mx hm => h attempt mx hm)
    cases n with
    | zero =>
      have hlt : ¬ (attempt + 1 < total) := by omega
      refine ⟨?_, ?_, ?_⟩ <;>
        simp [validateSMTPGo, hround, hlt, List.filter_append,
          roundTrace_filter_probe, roundTrace_filter_sleep, List.range'_succ]
    | succ m =>
      have hlt : attempt + 1 < total := by omega
      obtain ⟨ih1, ih2, ih3⟩ := ih (attempt + 1) (by omega)
      rw [validateSMTPGo_succ, hround]
      refine ⟨?_, ?_, ?_⟩
      · simp [hlt, ih1]
      · simp [hlt, List.filter_append, roundTrace_filter_probe,
          List.filter_cons, isProbeEvent, ih2, List.range'_succ]
      · simp [hlt, List.filter_append, roundTrace_filter_sleep,
          List.filter_cons, isSleepEvent, ih3, List.replicate_succ]

/-- If every round before round `k` fails over all hosts and round `k`
resolves a success, the retry loop returns that success. -/
theorem validateSMTPGo_reaches_success (probe : Nat → MxRecord → ProbeOutcome)
    (records : List MxRecord) (total k : Nat) (r : CheckResult)
    (evs : List SmtpEvent) (hk : k < total)
    (hfail : ∀ a, a < k → ∀ mx ∈ records, probeFailed (probe a mx) = true)
    (hsucc : runRound probe k records = (some r, evs)) :
    ∀ (remaining attempt : Nat), attempt + remaining = total → attempt ≤ k →
    (validateSMTPGo probe records total attempt remaining).1 = r := by
  intro remaining
  induction remaining with
  | zero =>
    intro attempt h1 h2
    exact absurd hk (by omega)
  | succ n ih =>
    intro attempt h1 h2
    by_cases hak : attempt = k
    · subst hak
      simp [validateSMTPGo, hsucc]
    · have hlt : attempt < k := lt_of_le_of_ne h2 hak
      have hround := runRound_all_failed probe attempt records (hfail attempt hlt)
      have hlt2 : attempt + 1 < total := by omega
      have ihh := ih (attempt + 1) (by omega) (by omega)
      simp [validateSMTPGo, hround, hlt2, ihh]

/-- C5: the orchestrator probes hosts strictly in list order within each
round and stops at the first host resolving `passed=true`; resolved
failures and rejections alike are swallowed and the next host is tried;
when an earlier-failing loop reaches a succeeding round, its result is
returned; and when every round over every host fails, the result is the
fallthrough `passed=false` message with an empty transcript, the probes
of all rounds having run in order with a `sleep 1000` between consecutive
rounds. -/
theorem c5_retry_orchestrator :
    (∀ (probe : Nat → MxRecord → ProbeOutcome) (a : Nat)
        (pre post : List MxRecord) (mx : MxRecord) (r : CheckResult),
        (∀ m ∈ pre, probeFailed (probe a m) = true) →
        probe a mx = .ok r → r.passed = true →
        runRound probe a (pre ++ mx :: post) =
          (some r, roundTrace a (pre ++ [mx]))) ∧
    (∀ (cfg : Config) (probe : Nat → MxRecord → ProbeOutcome)
        (records : List MxRecord) (k : Nat) (r : CheckResult)
        (evs : List SmtpEvent),
        k < cfg.retryAttempts →
        (∀ a, a < k → ∀ mx ∈ records, probeFailed (probe a mx) = true) →
        runRound probe k records = (some r, evs) →
        (validateSMTP cfg probe records).1 = r) ∧
    (∀ (cfg : Config) (probe : Nat → MxRecord → ProbeOutcome)
        (records : List MxRecord),
        (∀ a mx, mx ∈ records → probeFailed (probe a mx) = true) →
        (validateSMTP cfg probe records).1 = smtpFailAll ∧
        (validateSMTP cfg probe records).2.filter isProbeEvent =
          (List.range cfg.retryAttempts).flatMap (fun a => roundTrace a records) ∧
        (validateSMTP cfg probe records).2.filter isSleepEvent =
          List.replicate (cfg.retryAttempts - 1) (SmtpEvent.sleep 1000)) := by
  refine ⟨runRound_first_success, ?_, ?_⟩
  · intro cfg probe records k r evs hk hfail hsucc
    exact validateSMTPGo_reaches_success probe records cfg.retryAttempts k r evs
      hk hfail hsucc cfg.retryAttempts 0 (by omega) (by omega)
  · intro cfg probe records h
    have := validateSMTPGo_all_failed probe records cfg.retryAttempts h
      cfg.retryAttempts 0 (by omega)
    rw [List.range_eq_range']
    exact this

/-- Witness for C5: two MX hosts, two retry rounds, every probe rejected
by a connection error: the fallthrough result comes back, all four probes
ran in order, and exactly one 1000 ms sleep separated the rounds. -/
theorem c5_retry_orchestrator_witness :
    (validateSMTP { defaultConfig with retryAttempts := 2 }
        (fun _ _ => .err "ECONNREFUSED")
        [⟨"mx1.example.com", 10⟩, ⟨"mx2.example.com", 20⟩]).1 = smtpFailAll ∧
    (validateSMTP { defaultConfig with retryAttempts := 2 }
        (fun _ _ => .err "ECONNREFUSED")
        [⟨"mx1.example.com", 10⟩, ⟨"mx2.example.com", 20⟩]).2.filter
        isProbeEvent =
      (List.range ({ defaultConfig with retryAttempts := 2 } : Config).retryAttempts).flatMap
        (fun a => roundTrace a [⟨"mx1.example.com", 10⟩, ⟨"mx2.example.com", 20⟩]) ∧
    (validateSMTP { defaultConfig with retryAttempts := 2 }
        (fun _ _ => .err "ECONNREFUSED")
        [⟨"mx1.example.com", 10⟩, ⟨"mx2.example.com", 20⟩]).2.filter
        isSleepEvent =
      List.replicate (({ defaultConfig with retryAttempts := 2 } : Config).retryAttempts - 1)
        (SmtpEvent.sleep 1000) :=
  c5_retry_orchestrator.2.2 { defaultConfig with retryAttempts := 2 }
    (fun _ _ => .err "ECONNREFUSED")
    [⟨"mx1.example.com", 10⟩, ⟨"mx2.example.com", 20⟩]
    (fun _ _ _ => rfl)

/-! ### Claim C9 -/

/-- Splitting a list without the separator yields the single fragment. -/
theorem jsSplitChar_not_mem (cs : List Char) (sep : Char) (h : sep ∉ cs) :
    jsSplitChar cs sep = [cs] := by
  induction cs with
  | nil => rfl
  | cons c rest ih =>
    have hc : (c == sep) = false := beq_eq_false_iff_ne.mpr (fun hcs => h (hcs ▸ List.mem_cons_self c rest))
    have hrest : sep ∉ rest := fun hm => h (List.mem_cons_of_mem c hm)
    simp [jsSplitChar, hc, ih hrest]

/-- Splitting around the first separator occurrence. -/
theorem jsSplitChar_append_sep (xs ys : List Char) (sep : Char) (h : sep ∉ xs) :
    jsSplitChar (xs ++ sep :: ys) sep = xs :: jsSplitChar ys sep := by
  induction xs with
  | nil => simp [jsSplitChar]
  | cons x rest ih =>
    have hx : (x == sep) = false := beq_eq_false_iff_ne.mpr (fun hxs => h (hxs ▸ List.mem_cons_self x rest))
    have hrest : sep ∉ rest := fun hm => h (List.mem_cons_of_mem x hm)
    simp [jsSplitChar, hx, List.append_eq, ih hrest]

/-- Trimming a list framed by whitespace recovers the already-trimmed
core. -/
theorem trimChars_padded (ws1 ws2 core : List Char)
    (hws1 : ∀ c ∈ ws1, isJsWs c = true) (hws2 : ∀ c ∈ ws2, isJsWs c = true)
    (hne : core ≠ [])
    (h1 : core.dropWhile isJsWs = core)
    (h2 : core.rdropWhile isJsWs = core) :
    trimChars (ws1 ++ core ++ ws2) = core := by
  have hd1 : (ws1 ++ core ++ ws2).dropWhile isJsWs = core ++ ws2 := by
    rw [List.append_assoc, List.dropWhile_append]
    have : ws1.dropWhile isJsWs = [] := List.dropWhile_eq_nil_iff.mpr hws1
    rw [this]
    simp only [List.isEmpty_nil, if_true]
    rw [List.dropWhile_append, h1]
    have hfalse : core.isEmpty = false := by
      cases core with
      | nil => exact absurd rfl hne
      | cons a t => rfl
    rw [hfalse]
    simp
  have hd2 : (core ++ ws2).rdropWhile isJsWs = core := by
    unfold List.rdropWhile
    rw [List.reverse_append, List.dropWhile_append]
    have : ws2.reverse.dropWhile isJsWs = [] :=
      List.dropWhile_eq_nil_iff.mpr (fun c hc => hws2 c (List.mem_reverse.mp hc))
    rw [this]
    simp only [List.isEmpty_nil, if_true]
    have := h2
    unfold List.rdropWhile at this
    rw [List.reverse_eq_iff] at this
    rw [this, List.reverse_reverse]
  unfold trimChars
  rw [hd1, hd2]

/-- Two non-empty strings with the same trimmed character list get the
same syntax verdict: `validateSyntax` examines only its trimmed local
copy. -/
theorem validateSyntax_eq_of_trim_eq (e1 e2 : String) (h1 : e1 ≠ "") (h2 : e2 ≠ "")
    (ht : trimChars e1.toList = trimChars e2.toList) :
    validateSyntax e1 = validateSyntax e2 := by
  unfold validateSyntax
  rw [if_neg h1, if_neg h2, ht]

/-- Whenever the syntax check passed and the domain race completes, every
report branch stores the `validateDomain` verdict for the domain half of
`parseEmail` — the original, untrimmed split. -/
theorem validateEmail_domain_of_ok (cfg : Config) (w : World) (email : String)
    (dr : CheckResult)
    (hs : (validateSyntax email).passed = true)
    (hd : domainStage w email = .ok dr) :
    (validateEmail cfg w email).checks.domain = dr := by
  cases hdp : dr.passed with
  | false =>
    rw [validateEmail_domain_fail cfg w email dr hs hd hdp]
  | true =>
    cases hm : mxStage w email with
    | error m =>
      rw [validateEmail_mx_err cfg w email m dr hs hd hdp hm]
      rfl
    | ok mr =>
      cases hmp : mr.passed with
      | false =>
        rw [validateEmail_mx_fail cfg w email dr mr hs hd hdp hm hmp]
      | true =>
        cases hsm : smtpStage cfg w email mr.records with
        | error m =>
          rw [validateEmail_smtp_err cfg w email m dr mr hs hd hdp hm hmp hsm]
          rfl
        | ok sr =>
          rw [validateEmail_smtp_done cfg w email dr mr sr hs hd hdp hm hmp hsm]

/-- C9: `validateSyntax` trims a local copy before applying its rules,
while `parseEmail` splits the original untrimmed string.  (1) splitting a
one-`@` string recovers its two halves verbatim; (2) any address framed
by whitespace around a trimmed, syntactically valid core passes the
syntax check, yet parses into a local part that keeps the leading
whitespace and a domain that keeps the trailing whitespace; (3) the
domain string handed to the completed domain stage is exactly
`parseEmail`'s domain half, and (4) the heuristic stages receive the
`parseEmail` halves as well. -/
theorem c9_trim_untrimmed_mismatch :
    (∀ (l d : List Char), '@' ∉ l → '@' ∉ d →
        parseEmail ⟨l ++ '@' :: d⟩ = ⟨⟨l⟩, ⟨d⟩⟩) ∧
    (∀ (ws1 ws2 l d : List Char),
        (∀ c ∈ ws1, isJsWs c = true) → (∀ c ∈ ws2, isJsWs c = true) →
        '@' ∉ l → '@' ∉ d →
        (l ++ '@' :: d).dropWhile isJsWs = l ++ '@' :: d →
        (l ++ '@' :: d).rdropWhile isJsWs = l ++ '@' :: d →
        (validateSyntax ⟨l ++ '@' :: d⟩).passed = true →
        (validateSyntax ⟨ws1 ++ (l ++ '@' :: d) ++ ws2⟩).passed = true ∧
        parseEmail ⟨ws1 ++ (l ++ '@' :: d) ++ ws2⟩ =
          ⟨⟨ws1 ++ l⟩, ⟨d ++ ws2⟩⟩) ∧
    (∀ (cfg : Config) (w : World) (email : String) (dr : CheckResult),
        (validateSyntax email).passed = true →
        domainStage w email = .ok dr →
        (validateEmail cfg w email).checks.domain = dr) ∧
    (∀ (cfg : Config) (w : World) (email : String) (dr mr sr : CheckResult),
        (validateSyntax email).passed = true →
        domainStage w email = .ok dr → dr.passed = true →
        mxStage w email = .ok mr → mr.passed = true →
        smtpStage cfg w email mr.records = .ok sr →
        (validateEmail cfg w email).checks.disposable =
          checkDisposable cfg (parseEmail email).domain ∧
        (validateEmail cfg w email).checks.roleBased =
          checkRoleBased cfg (parseEmail email).localPart) := by
  refine ⟨?_, ?_, validateEmail_domain_of_ok, ?_⟩
  · intro l d hl hd
    have hsplit : jsSplitChar (l ++ '@' :: d) '@' = [l, d] := by
      rw [jsSplitChar_append_sep l d '@' hl, jsSplitChar_not_mem d '@' hd]
    simp [parseEmail, hsplit]
  · intro ws1 ws2 l d hws1 hws2 hl hd h1 h2 hpass
    have hat1 : ('@' : Char) ∉ ws1 := fun hm => by
      have := hws1 '@' hm
      simp [isJsWs] at this
    have hat2 : ('@' : Char) ∉ ws2 := fun hm => by
      have := hws2 '@' hm
      simp [isJsWs] at this
    have hne : l ++ '@' :: d ≠ [] := by simp
    have htr : trimChars (ws1 ++ (l ++ '@' :: d) ++ ws2) = l ++ '@' :: d :=
      trimChars_padded ws1 ws2 (l ++ '@' :: d) hws1 hws2 hne h1 h2
    have htr2 : trimChars (l ++ '@' :: d) = l ++ '@' :: d := by
      unfold trimChars
      rw [h1, h2]
    have hne1 : (⟨ws1 ++ (l ++ '@' :: d) ++ ws2⟩ : String) ≠ "" := by
      rw [Ne, String.ext_iff]
      simp
    have hne2 : (⟨l ++ '@' :: d⟩ : String) ≠ "" := by
      rw [Ne, String.ext_iff]
      simp
    constructor
    · rw [validateSyntax_eq_of_trim_eq _ _ hne1 hne2 (by
        rw [show (⟨ws1 ++ (l ++ '@' :: d) ++ ws2⟩ : String).toList =
              ws1 ++ (l ++ '@' :: d) ++ ws2 from rfl,
            show (⟨l ++ '@' :: d⟩ : String).toList = l ++ '@' :: d from rfl,
            htr, htr2])]
      exact hpass
    · have hrearrange : ws1 ++ (l ++ '@' :: d) ++ ws2 =
          (ws1 ++ l) ++ '@' :: (d ++ ws2) := by
        simp
      have hat3 : ('@' : Char) ∉ ws1 ++ l := by
        intro hm
        rcases List.mem_append.mp hm with hm | hm
        · exact hat1 hm
        · exact hl hm
      have hat4 : ('@' : Char) ∉ d ++ ws2 := by
        intro hm
        rcases List.mem_append.mp hm with hm | hm
        · exact hd hm
        · exact hat2 hm
      have hsplit : jsSplitChar (ws1 ++ (l ++ '@' :: d) ++ ws2) '@' =
          [ws1 ++ l, d ++ ws2] := by
        rw [hrearrange, jsSplitChar_append_sep _ _ '@' hat3,
          jsSplitChar_not_mem _ '@' hat4]
      have hlist : (⟨ws1 ++ (l ++ '@' :: d) ++ ws2⟩ : String).toList =
          ws1 ++ (l ++ '@' :: d) ++ ws2 := rfl
      unfold parseEmail
      rw [hlist, hsplit]
      rfl
  · intro cfg w email dr mr sr hs hd hdp hm hmp hsm
    rw [validateEmail_smtp_done cfg w email dr mr sr hs hd hdp hm hmp hsm]
    exact ⟨rfl, rfl⟩

/-- Witness for C9: `" user@example.com "` (padded by single spaces)
passes the syntax check while parsing into `" user"` / `"example.com "`,
and in the happy-path world the completed domain stage receives that
padded domain. -/
theorem c9_trim_untrimmed_witness :
    ((validateSyntax ⟨[' '] ++ ("user".toList ++ '@' :: "example.com".toList) ++
        [' ']⟩).passed = true ∧
      parseEmail ⟨[' '] ++ ("user".toList ++ '@' :: "example.com".toList) ++
        [' ']⟩ = ⟨⟨[' '] ++ "user".toList⟩, ⟨"example.com".toList ++ [' ']⟩⟩) ∧
    (validateEmail defaultConfig wHappy " user@example.com ").checks.domain =
      { passed := true, message := "Domain exists and is resolvable" } :=
  ⟨c9_trim_untrimmed_mismatch.2.1 [' '] [' '] "user".toList "example.com".toList
      (by decide) (by decide) (by decide) (by decide) (by decide) (by decide)
      (by decide),
    c9_trim_untrimmed_mismatch.2.2.1 defaultConfig wHappy " user@example.com "
      { passed := true, message := "Domain exists and is resolvable" }
      (by decide) rfl⟩

end EmailValidator
